import Mathlib

/-!
Verification of the blog admin application's reporting/export pipeline and
auth views (src/blog/views/views.py, src/blog/views/auth.py) against its
natural-language specification.

The database snapshot is a record of three tables (products, customers,
orders); ORM query primitives (filter/annotate/aggregate) are embedded as
list operations with SQL NULL semantics (aggregates over an empty row set
yield `none`). Views are pure functions of the snapshot and the request
parameters.
-/

namespace Blog

/-- Product row: id, unique slug, decimal price (embedded as an integer
number of currency minor units), quantity in stock. -/
structure Product where
  id : Nat
  slug : String
  price : Int
  quantity : Nat
deriving DecidableEq, Repr

/-- Customer row: id, name, email, phone, billing address. -/
structure Customer where
  id : Nat
  name : String
  email : String
  phone : String
  billing_address : String
deriving DecidableEq, Repr

/-- Order row: references one customer and one product, with a quantity. -/
structure Order where
  id : Nat
  customer_id : Nat
  product_id : Nat
  quantity : Nat
deriving DecidableEq, Repr

/-- A database snapshot: the three tables, in database-default row order. -/
structure DB where
  products : List Product
  customers : List Customer
  orders : List Order
deriving DecidableEq, Repr

/-- SQL SUM over the joined rows of an aggregate query: NULL (`none`) when
there are no rows, otherwise the sum. -/
def sumAgg (l : List Int) : Option Int :=
  match l with
  | [] => none
  | _ => some l.sum

/-- SQL SUM for natural-number columns (order quantities). -/
def sumAggNat (l : List Nat) : Option Nat :=
  match l with
  | [] => none
  | _ => some l.sum

/-- SQL AVG: NULL on an empty row set, otherwise the rational mean. -/
def avgAgg (l : List Int) : Option ℚ :=
  match l with
  | [] => none
  | _ => some ((l.sum : ℚ) / (l.length : ℚ))

/-- Foreign-key lookup of an order's product (the `order__product` join). -/
def findProduct (db : DB) (pid : Nat) : Option Product :=
  db.products.find? (fun p => p.id == pid)

/-- The orders belonging to one customer (`customer.order_set` /
`Order.objects.filter(customer=...)`). -/
def customerOrders (db : DB) (cid : Nat) : List Order :=
  db.orders.filter (fun o => o.customer_id == cid)

/-- The joined rows of `Sum(F('order__quantity') * F('order__product__price'))`
restricted to one customer: one term `quantity * price` per order whose
product the inner join resolves. -/
def orderRevenueTerms (db : DB) (cid : Nat) : List Int :=
  (customerOrders db cid).filterMap
    (fun o => (findProduct db o.product_id).map (fun p => (o.quantity : Int) * p.price))

/-- `queryset.annotate(total_revenue=Sum(F('order__quantity') * F('order__product__price')))`:
pairs each customer with its (possibly NULL) summed revenue. -/
def annotate_total_revenue (db : DB) (cs : List Customer) : List (Customer × Option Int) :=
  cs.map (fun c => (c, sumAgg (orderRevenueTerms db c.id)))

/-- Every order's product foreign key resolves (referential integrity, which
the ORM enforces on real databases). -/
def wellFormed (db : DB) : Prop :=
  ∀ o ∈ db.orders, (findProduct db o.product_id).isSome = true

instance (db : DB) : Decidable (wellFormed db) := by
  unfold wellFormed; infer_instance

/-! ### Case-insensitive substring match (the ORM's `icontains` operator) -/

/-- The characters of a string, lowercased. -/
def lowerChars (s : String) : List Char :=
  s.data.map Char.toLower

/-- `charsStartWith h n`: `n` is an initial segment of `h`. -/
def charsStartWith : List Char → List Char → Bool
  | _, [] => true
  | [], _ :: _ => false
  | c :: cs, n :: ns => c == n && charsStartWith cs ns

/-- `charsContain n h`: `n` occurs contiguously somewhere in `h`. -/
def charsContain (n : List Char) : List Char → Bool
  | [] => charsStartWith [] n
  | c :: cs => charsStartWith (c :: cs) n || charsContain n cs

/-- Django `field__icontains=needle`: case-insensitive substring match. -/
def icontains (hay needle : String) : Bool :=
  charsContain (lowerChars needle) (lowerChars hay)

/-! ### Customer list, detail and export views (views.py) -/

/-- `CustomersListView.get_queryset`: optionally filter by a case-insensitive
substring match against name OR email (skipped when the `search` parameter is
absent or empty, since Python treats `""` as falsy), then annotate each
customer with `total_revenue`. -/
def customers_get_queryset (db : DB) (search : Option String) : List (Customer × Option Int) :=
  let queryset := db.customers
  let queryset :=
    match search with
    | some q =>
        if q ≠ "" then
          queryset.filter (fun c => icontains c.name q || icontains c.email q)
        else queryset
    | none => queryset
  annotate_total_revenue db queryset

/-- `CustomerDetailView.get_context_data`: `Order.objects.filter(customer=customer)
.aggregate(total_revenue=Sum(F('quantity') * F('product__price')))`. -/
def customer_detail_total_revenue (db : DB) (c : Customer) : Option Int :=
  sumAgg ((db.orders.filter (fun o => o.customer_id == c.id)).filterMap
    (fun o => (findProduct db o.product_id).map (fun p => (o.quantity : Int) * p.price)))

/-- A spreadsheet/CSV cell value, keeping the Python type of each field. -/
inductive Cell
  | ofNat (n : Nat)
  | ofStr (s : String)
  | ofRevenue (v : Option Int)
deriving DecidableEq, Repr

/-- One object of the JSON export: the dict produced by
`.values('id','name','email','phone','billing_address','total_revenue')`. -/
structure JsonRow where
  id : Nat
  name : String
  email : String
  phone : String
  billing_address : String
  total_revenue : Option Int
deriving DecidableEq, Repr

/-- The cells of one JSON record, in field order (links a JSON object to the
corresponding CSV/XLSX row). -/
def jsonRowCells (r : JsonRow) : List Cell :=
  [.ofNat r.id, .ofStr r.name, .ofStr r.email, .ofStr r.phone,
   .ofStr r.billing_address, .ofRevenue r.total_revenue]

/-- The header row shared by the CSV and XLSX serializers. -/
def exportHeader : List Cell :=
  [.ofStr "id", .ofStr "name", .ofStr "email", .ofStr "phone",
   .ofStr "billing_address", .ofStr "total_revenue"]

/-- `ExportDataView.export_csv`: header row, then one row per annotated
customer, in database-default order. -/
def export_csv (db : DB) : List (List Cell) :=
  let customers := annotate_total_revenue db db.customers
  exportHeader ::
    customers.map (fun cr =>
      [.ofNat cr.1.id, .ofStr cr.1.name, .ofStr cr.1.email, .ofStr cr.1.phone,
       .ofStr cr.1.billing_address, .ofRevenue cr.2])

/-- `ExportDataView.export_json`: the list of per-customer dicts that is then
`json.dumps`-ed. -/
def export_json (db : DB) : List JsonRow :=
  (annotate_total_revenue db db.customers).map (fun cr =>
    ⟨cr.1.id, cr.1.name, cr.1.email, cr.1.phone, cr.1.billing_address, cr.2⟩)

/-- An XLSX worksheet: its title and its appended rows. -/
structure Worksheet where
  title : String
  rows : List (List Cell)
deriving DecidableEq, Repr

/-- `ExportDataView.export_xlsx`: worksheet "Customers", header row, then one
row per annotated customer. -/
def export_xlsx (db : DB) : Worksheet :=
  let headers := exportHeader
  let customers := annotate_total_revenue db db.customers
  ⟨"Customers",
    headers ::
      customers.map (fun cr =>
        [.ofNat cr.1.id, .ofStr cr.1.name, .ofStr cr.1.email, .ofStr cr.1.phone,
         .ofStr cr.1.billing_address, .ofRevenue cr.2])⟩

/-- The body of an export HTTP response. -/
inductive Body
  | csvBody (rows : List (List Cell))
  | jsonBody (rows : List JsonRow)
  | xlsxBody (ws : Worksheet)
  | textBody (s : String)
deriving DecidableEq, Repr

/-- An HTTP response: status code and body (`HttpResponse` defaults to 200). -/
structure Response where
  status : Nat
  body : Body
deriving DecidableEq, Repr

/-- `ExportDataView.get`: `format = request.GET.get('format', 'csv')`, then
dispatch to the matching serializer; any other value gets a status-404
response whose content is set to `'Bad requests'`. -/
def export_data_get (db : DB) (format : Option String) : Response :=
  let f := format.getD "csv"
  if f = "csv" then ⟨200, .csvBody (export_csv db)⟩
  else if f = "json" then ⟨200, .jsonBody (export_json db)⟩
  else if f = "xlsx" then ⟨200, .xlsxBody (export_xlsx db)⟩
  else ⟨404, .textBody "Bad requests"⟩

/-! ### Pagination

The views delegate paging to `django.core.paginator.Paginator` (external
library code, not under src/). Its documented semantics are embedded here.
-/

/-- `Paginator.num_pages` with the default `allow_empty_first_page=True` and
no orphans: `ceil(max(1, count) / per_page)`; at least one page always
exists. -/
def numPages (count perPage : Nat) : Nat :=
  (max 1 count + perPage - 1) / perPage

/-- Digit-string parsing: all-digit, non-empty strings parse; anything else
fails. -/
def parseNatChars (cs : List Char) : Option Nat :=
  match cs with
  | [] => none
  | _ =>
      if cs.all Char.isDigit then
        some (cs.foldl (fun acc c => 10 * acc + (c.toNat - 48)) 0)
      else none

/-- Python `int(...)` on a string: an optional leading minus sign followed by
digits (leading `+` and surrounding whitespace are not modelled; no request
in scope supplies them). -/
def parseIntChars (cs : List Char) : Option Int :=
  match cs with
  | '-' :: rest => (parseNatChars rest).map (fun n => -(n : Int))
  | _ => (parseNatChars cs).map (fun n => (n : Int))

/-- `int(page)` applied to an optional request parameter: `None` or a
non-numeric string fails (Python `int` raises), a numeric string parses,
negatives included. -/
def parsePageParam (param : Option String) : Option Int :=
  param.bind (fun s => parseIntChars s.data)

/-- Modelled from the spec: the paging the spec calls "standard paginator
behavior" is `Paginator.get_page` (library code absent from src/), whose
documented behavior is: a non-integer page parameter gives page 1; an
integer below 1 or above `num_pages` gives the last page. -/
def get_page_number (count perPage : Nat) (param : Option String) : Nat :=
  match parsePageParam param with
  | none => 1
  | some n =>
      if n < 1 then numPages count perPage
      else if n > (numPages count perPage : Int) then numPages count perPage
      else n.toNat

/-- The object list of page `pageNum` (1-indexed). -/
def pageItems {α : Type} (items : List α) (perPage pageNum : Nat) : List α :=
  (items.drop ((pageNum - 1) * perPage)).take perPage

/-- `index` (views.py): paginate all products by 2 via `get_page` and render
the requested page. -/
def index_page (db : DB) (param : Option String) : List Product :=
  pageItems db.products 2 (get_page_number db.products.length 2 param)

/-- Outcome of `ListView` pagination: either a page of objects with its
1-indexed number, or an Http404 error response. -/
inductive PaginateResult (α : Type)
  | page (items : List α) (number : Nat)
  | http404
deriving DecidableEq, Repr

/-- Modelled from the spec: `CustomersListView` inherits paging from Django's
`MultipleObjectMixin.paginate_queryset` (library code absent from src/),
whose documented behavior differs from `get_page`: a missing or empty page
parameter defaults to 1, the literal string `"last"` selects the last page,
any other non-numeric string raises Http404, and a numeric page outside
`1..num_pages` raises Http404. -/
def pageParamRaw (param : Option String) : String :=
  match param with
  | none => "1"
  | some s => if s = "" then "1" else s

/-- Modelled from the spec: the page-selection branch of
`MultipleObjectMixin.paginate_queryset` (see `pageParamRaw`): numeric pages
inside `1..num_pages` are served, `"last"` serves the last page, and
everything else raises Http404. -/
def list_view_paginate {α : Type} (items : List α) (perPage : Nat)
    (param : Option String) : PaginateResult α :=
  match parseIntChars (pageParamRaw param).data with
  | none =>
      if pageParamRaw param = "last" then
        .page (pageItems items perPage (numPages items.length perPage))
          (numPages items.length perPage)
      else .http404
  | some n =>
      if 1 ≤ n ∧ n ≤ (numPages items.length perPage : Int) then
        .page (pageItems items perPage n.toNat) n.toNat
      else .http404

/-- `CustomersListView` (`paginate_by = 2`): the filtered, annotated queryset
paginated by the ListView machinery. -/
def customers_list_page (db : DB) (search pageParam : Option String) :
    PaginateResult (Customer × Option Int) :=
  list_view_paginate (customers_get_queryset db search) 2 pageParam

/-! ### Product list view with aggregates (views.py) -/

/-- The context of `ProductListTemplateView.get_context_data`. -/
structure ProductListContext where
  page_obj : List Product
  total_quantity : Option Nat
  average_price : Option ℚ
deriving DecidableEq, Repr

/-- `ProductListTemplateView.get_context_data`: paginates
`Product.objects.all()` by 2, and aggregates
`Order.objects.filter(product__in=products).aggregate(Sum('quantity'))` —
where `products` is the full queryset, not the page — and
`products.aggregate(Avg('price'))`. -/
def product_list_context (db : DB) (param : Option String) : ProductListContext :=
  let products := db.products
  let page_obj := pageItems products 2 (get_page_number products.length 2 param)
  let total_quantity :=
    sumAggNat ((db.orders.filter (fun o => products.any (fun p => p.id == o.product_id))).map
      (fun o => o.quantity))
  let average_price := avgAgg (products.map (fun p => p.price))
  ⟨page_obj, total_quantity, average_price⟩

/-! ### Not-found behavior of single-object lookups (views.py) -/

/-- Outcome of a customer lookup: the object, a standard Http404 response, or
an uncaught `DoesNotExist` exception escaping the view (an unhandled lookup
error, rendered by the framework as a server error, not a 404). -/
inductive LookupResult
  | found (c : Customer)
  | notFound404
  | doesNotExistError
deriving DecidableEq, Repr

/-- Outcome of a product lookup (same taxonomy). -/
inductive ProductLookupResult
  | found (p : Product)
  | notFound404
  | doesNotExistError
deriving DecidableEq, Repr

/-- `CustomerDetailView.get_object`: `get_object_or_404(Customer, id=pk)` —
a missing id becomes a standard 404. -/
def customer_detail_get_object (db : DB) (pk : Nat) : LookupResult :=
  match db.customers.find? (fun c => c.id == pk) with
  | some c => .found c
  | none => .notFound404

/-- `CustomerUpdateView.get_object`: `Customer.objects.get(id=pk)` — a
missing id raises `Customer.DoesNotExist`, which nothing catches. -/
def customer_update_get_object (db : DB) (pk : Nat) : LookupResult :=
  match db.customers.find? (fun c => c.id == pk) with
  | some c => .found c
  | none => .doesNotExistError

/-- Modelled from the spec: `CustomerDeleteView` overrides no lookup, so it
uses Django's default `SingleObjectMixin.get_object` (library code absent
from src/), which catches `DoesNotExist` and raises Http404 — a standard
404, not an unhandled error. -/
def customer_delete_get_object (db : DB) (pk : Nat) : LookupResult :=
  match db.customers.find? (fun c => c.id == pk) with
  | some c => .found c
  | none => .notFound404

/-- `ProductDetailTemplateView.get_context_data`:
`Product.objects.get(slug=kwargs['slug'])` — a missing slug raises
`Product.DoesNotExist`, which nothing catches. -/
def product_detail_lookup (db : DB) (slug : String) : ProductLookupResult :=
  match db.products.find? (fun p => p.slug == slug) with
  | some p => .found p
  | none => .doesNotExistError

/-- `ProductUpdateView.get`/`post`: `Product.objects.get(slug=slug)` — a
missing slug raises `Product.DoesNotExist`, which nothing catches. -/
def product_update_lookup (db : DB) (slug : String) : ProductLookupResult :=
  match db.products.find? (fun p => p.slug == slug) with
  | some p => .found p
  | none => .doesNotExistError

/-! ### Registration and email verification (auth.py) -/

/-- User row of the auth table. The password is kept abstract (hashing is
delegated to the framework). -/
structure User where
  id : Nat
  first_name : String
  email : String
  password : String
  is_active : Bool
  is_staff : Bool
  is_superuser : Bool
deriving DecidableEq, Repr

/-- Outcome of `VerifyEmailConfirmView.get`: redirect to
`verify_email_complete`, or re-render the page with the
"The link is invalid." warning. -/
inductive VerifyOutcome
  | redirectComplete
  | invalidLinkWarning
deriving DecidableEq, Repr

/-- `VerifyEmailConfirmView.get`: decode the base64url uid and look the user
up (any `TypeError`/`ValueError`/`OverflowError`/`DoesNotExist` leaves
`user = None`); if a user was found and `check_token` accepts, set
`is_active = True` and save, else warn. `decode` embeds
`force_str ∘ urlsafe_base64_decode` followed by the pk coercion, and `check`
embeds `account_activation_token.check_token`; both are framework/token
library code kept abstract. -/
def verify_found (decode : String → Option Nat) (users : List User)
    (uidb64 : String) : Option User :=
  (decode uidb64).bind (fun uid => users.find? (fun u => u.id == uid))

/-- The branch of `VerifyEmailConfirmView.get` after the `try` block: if a
user was found and `check_token` accepts, set `is_active = True` on that
user and save, then redirect; otherwise leave the table unchanged and show
the invalid-link warning. -/
def verify_email_confirm_get (decode : String → Option Nat)
    (check : User → String → Bool) (users : List User)
    (uidb64 token : String) : List User × VerifyOutcome :=
  match verify_found decode users uidb64 with
  | some user =>
      if check user token then
        (users.map (fun u => if u.id == user.id then { u with is_active := true } else u),
         .redirectComplete)
      else (users, .invalidLinkWarning)
  | none => (users, .invalidLinkWarning)

/-- Outcome of `RegisterView.post`: redirect to `verify_email_done`, or
re-render the form on validation failure. -/
inductive RegisterOutcome
  | redirectVerifyEmailDone
  | rerenderForm
deriving DecidableEq, Repr

/-- The registration form data together with its `is_valid()` verdict
(validation itself is framework code, kept abstract). -/
structure RegisterForm where
  first_name : String
  email : String
  password : String
  valid : Bool
deriving DecidableEq, Repr

/-- State after `RegisterView.post`: the user table, the session's
authenticated user id (`login` sets it), and the HTTP outcome. -/
structure RegisterResult where
  users : List User
  sessionUser : Option Nat
  outcome : RegisterOutcome
deriving DecidableEq, Repr

/-- `User.objects.create_user(...)`: inserts a user with Django's defaults
(`is_active=True`, `is_staff=False`, `is_superuser=False`); the database
assigns the fresh id. -/
def create_user (users : List User) (newId : Nat)
    (first_name email password : String) : List User × User :=
  let u : User := ⟨newId, first_name, email, password, true, false, false⟩
  (users ++ [u], u)

/-- `user.save()` on an existing row: overwrite the row with that id. -/
def save_user (users : List User) (u : User) : List User :=
  users.map (fun v => if v.id == u.id then u else v)

/-- `RegisterView.post`: if the form validates, create the user, set
`is_active=False`, `is_staff=True`, `is_superuser=True`, save, send the
activation email (out of scope), log the user in, and redirect to
`verify_email_done`; otherwise re-render the form. -/
def register_post (users : List User) (sessionUser : Option Nat)
    (form : RegisterForm) (newId : Nat) : RegisterResult :=
  if form.valid then
    let created := create_user users newId form.first_name form.email form.password
    let user1 := { created.2 with is_active := false, is_staff := true, is_superuser := true }
    let users2 := save_user created.1 user1
    ⟨users2, some user1.id, .redirectVerifyEmailDone⟩
  else ⟨users, sessionUser, .rerenderForm⟩

/-! ### Specification-side formulas (named after the spec's words, for
comparison with the embedded code) -/

/-- The revenue one order contributes: `order.quantity * order.product.price`
(0 stands in for the price of an unresolvable product; under `wellFormed`
that case never arises). -/
def orderValue (db : DB) (o : Order) : Int :=
  (o.quantity : Int) * (((findProduct db o.product_id).map (fun p => p.price)).getD 0)

/-- The spec's per-customer revenue: `Σ(order.quantity × order.product.price)`
over the customer's orders, and null (absent) — not zero — for a customer
with no orders. -/
def claimedTotalRevenue (db : DB) (c : Customer) : Option Int :=
  match customerOrders db c.id with
  | [] => none
  | os => some ((os.map (orderValue db)).sum)

/-! ### Concrete fixtures used by witnesses and counterexamples -/

/-- The spec's worked scenario: customer 1 has orders (qty 2, price 10) and
(qty 1, price 5); customer 2 has no orders. -/
def dbScenario : DB :=
  ⟨[⟨1, "widget", 10, 7⟩, ⟨2, "gadget", 5, 3⟩],
   [⟨1, "Alice", "alice@example.com", "111", "1 Main St"⟩,
    ⟨2, "Bob", "bob@example.com", "222", "2 Side St"⟩],
   [⟨1, 1, 1, 2⟩, ⟨2, 1, 2, 1⟩]⟩

/-- Three products, one customer, and a single order of quantity 5 on the
third product — which is not on the first page. -/
def dbThirdProductOrder : DB :=
  ⟨[⟨1, "p1", 10, 1⟩, ⟨2, "p2", 20, 1⟩, ⟨3, "p3", 30, 1⟩],
   [⟨1, "Alice", "alice@example.com", "111", "1 Main St"⟩],
   [⟨1, 1, 3, 5⟩]⟩

/-- Four products (two pages of two) and one customer, no orders. -/
def dbFourProducts : DB :=
  ⟨[⟨1, "p1", 10, 1⟩, ⟨2, "p2", 20, 1⟩, ⟨3, "p3", 30, 1⟩, ⟨4, "p4", 40, 1⟩],
   [⟨1, "Alice", "alice@example.com", "111", "1 Main St"⟩],
   []⟩

/-- An empty database. -/
def dbEmpty : DB := ⟨[], [], []⟩

/-- One inactive, non-staff user awaiting verification. -/
def usersOne : List User :=
  [⟨1, "Alice", "alice@example.com", "pw", false, false, false⟩]

/-- A concrete stand-in for the uid decoder: numeric strings decode. -/
def decodeNat (s : String) : Option Nat := parseNatChars s.data

/-- A concrete stand-in for the token checker: only the literal "tok"
verifies. -/
def checkTok (_ : User) (t : String) : Bool := t == "tok"

/-- A valid registration form submission. -/
def formCarol : RegisterForm := ⟨"Carol", "carol@example.com", "pw", true⟩

/-! ## Helper lemmas -/

theorem filterMap_revenue_eq_map (db : DB) :
    ∀ l : List Order, (∀ o ∈ l, (findProduct db o.product_id).isSome = true) →
      l.filterMap (fun o => (findProduct db o.product_id).map
          (fun p => (o.quantity : Int) * p.price))
        = l.map (orderValue db) := by
  intro l
  induction l with
  | nil => intro _; rfl
  | cons o t ih =>
      intro h
      have ho := h o (List.mem_cons_self o t)
      obtain ⟨p, hp⟩ := Option.isSome_iff_exists.mp ho
      have ht : ∀ x ∈ t, (findProduct db x.product_id).isSome = true :=
        fun x hx => h x (List.mem_cons_of_mem _ hx)
      simp [List.filterMap_cons, hp, orderValue, ih ht]

theorem orderRevenueTerms_eq_map (db : DB) (hwf : wellFormed db) (cid : Nat) :
    orderRevenueTerms db cid = (customerOrders db cid).map (orderValue db) := by
  unfold orderRevenueTerms
  exact filterMap_revenue_eq_map db _
    (fun o ho => hwf o (List.mem_of_mem_filter ho))

theorem sumAgg_terms_eq_claimed (db : DB) (hwf : wellFormed db) (c : Customer) :
    sumAgg (orderRevenueTerms db c.id) = claimedTotalRevenue db c := by
  rw [orderRevenueTerms_eq_map db hwf]
  unfold claimedTotalRevenue
  cases hc : customerOrders db c.id <;> simp [sumAgg, hc]

theorem annotate_eq_claimed (db : DB) (hwf : wellFormed db) (cs : List Customer) :
    annotate_total_revenue db cs = cs.map (fun c => (c, claimedTotalRevenue db c)) := by
  unfold annotate_total_revenue
  induction cs with
  | nil => rfl
  | cons c t ih => simp [ih, sumAgg_terms_eq_claimed db hwf c]

theorem detail_eq_claimed (db : DB) (hwf : wellFormed db) (c : Customer) :
    customer_detail_total_revenue db c = claimedTotalRevenue db c := by
  have h : customer_detail_total_revenue db c = sumAgg (orderRevenueTerms db c.id) := rfl
  rw [h]
  exact sumAgg_terms_eq_claimed db hwf c

/-! ## Claims -/

/-- C1: in the customer list view, the customer detail view, and all three
export serializers, the annotated `total_revenue` equals
`Σ(order.quantity × order.product.price)` over the customer's orders,
recomputed from current product prices, and is null (not zero) for a
customer with no orders. -/
theorem C1_total_revenue_formula (db : DB) (hwf : wellFormed db) :
    (∀ c, customer_detail_total_revenue db c = claimedTotalRevenue db c)
    ∧ (∀ search, ∀ cr ∈ customers_get_queryset db search, cr.2 = claimedTotalRevenue db cr.1)
    ∧ (export_csv db = exportHeader :: db.customers.map (fun c =>
        [Cell.ofNat c.id, Cell.ofStr c.name, Cell.ofStr c.email, Cell.ofStr c.phone,
         Cell.ofStr c.billing_address, Cell.ofRevenue (claimedTotalRevenue db c)]))
    ∧ (export_json db = db.customers.map (fun c =>
        ⟨c.id, c.name, c.email, c.phone, c.billing_address, claimedTotalRevenue db c⟩))
    ∧ ((export_xlsx db).rows = exportHeader :: db.customers.map (fun c =>
        [Cell.ofNat c.id, Cell.ofStr c.name, Cell.ofStr c.email, Cell.ofStr c.phone,
         Cell.ofStr c.billing_address, Cell.ofRevenue (claimedTotalRevenue db c)]))
    ∧ (∀ c, customerOrders db c.id = [] → customer_detail_total_revenue db c = none) := by
  refine ⟨detail_eq_claimed db hwf, ?_, ?_, ?_, ?_, ?_⟩
  · intro search cr hcr
    unfold customers_get_queryset at hcr
    rw [annotate_eq_claimed db hwf] at hcr
    obtain ⟨c, _, rfl⟩ := List.mem_map.mp hcr
    rfl
  · simp only [export_csv, annotate_eq_claimed db hwf, List.map_map]
    rfl
  · simp only [export_json, annotate_eq_claimed db hwf, List.map_map]
    rfl
  · simp only [export_xlsx, annotate_eq_claimed db hwf, List.map_map]
    rfl
  · intro c hc
    rw [detail_eq_claimed db hwf c]
    unfold claimedTotalRevenue
    rw [hc]

/-- Witness for C1: on the spec's worked scenario (well-formed), customer 1's
detail-view revenue is 2·10 + 1·5 = 25, and customer 2, with no orders, gets
null. -/
theorem C1_witness :
    customer_detail_total_revenue dbScenario ⟨1, "Alice", "alice@example.com", "111", "1 Main St"⟩ = some 25
    ∧ customer_detail_total_revenue dbScenario ⟨2, "Bob", "bob@example.com", "222", "2 Side St"⟩ = none := by
  have h := C1_total_revenue_formula dbScenario (by decide)
  constructor
  · rw [h.1 ⟨1, "Alice", "alice@example.com", "111", "1 Main St"⟩]; decide
  · rw [h.1 ⟨2, "Bob", "bob@example.com", "222", "2 Side St"⟩]; decide

/-- C2: for a fixed snapshot, the CSV, JSON and XLSX serializers emit the
full customer collection with the same fields in the same database-default
order — CSV and XLSX open with exactly the header row, the XLSX sheet is
titled "Customers", and the three row sequences agree pairwise. -/
theorem C2_export_formats_agree (db : DB) :
    export_csv db = exportHeader :: (export_json db).map jsonRowCells
    ∧ (export_xlsx db).rows = exportHeader :: (export_json db).map jsonRowCells
    ∧ (export_xlsx db).title = "Customers"
    ∧ (export_json db).map (fun r => r.id) = db.customers.map (fun c => c.id)
    ∧ (export_json db).length = db.customers.length := by
  refine ⟨?_, ?_, rfl, ?_, ?_⟩
  · simp only [export_csv, export_json, List.map_map]
    rfl
  · simp only [export_xlsx, export_json, List.map_map]
    rfl
  · simp only [export_json, annotate_total_revenue, List.map_map]
    rfl
  · simp [export_json, annotate_total_revenue]

/-- C3: the export dispatcher selects the CSV serializer for `csv` (also when
the format parameter is absent), JSON for `json`, XLSX for `xlsx`, and
answers every other format value with status 404 and body exactly
"Bad requests". -/
theorem C3_export_dispatch (db : DB) :
    export_data_get db none = ⟨200, .csvBody (export_csv db)⟩
    ∧ export_data_get db (some "csv") = ⟨200, .csvBody (export_csv db)⟩
    ∧ export_data_get db (some "json") = ⟨200, .jsonBody (export_json db)⟩
    ∧ export_data_get db (some "xlsx") = ⟨200, .xlsxBody (export_xlsx db)⟩
    ∧ (∀ s : String, s ≠ "csv" → s ≠ "json" → s ≠ "xlsx" →
        export_data_get db (some s) = ⟨404, .textBody "Bad requests"⟩) := by
  refine ⟨rfl, rfl, rfl, rfl, ?_⟩
  intro s h1 h2 h3
  simp [export_data_get, h1, h2, h3]

/-- Witness for C3: the spec's own example of an unknown format, `xml`, gets
the 404 "Bad requests" response on a concrete snapshot. -/
theorem C3_witness :
    export_data_get dbScenario (some "xml") = ⟨404, Body.textBody "Bad requests"⟩ :=
  (C3_export_dispatch dbScenario).2.2.2.2 "xml" (by decide) (by decide) (by decide)

theorem charsStartWith_iff (n : List Char) :
    ∀ h : List Char, charsStartWith h n = true ↔ ∃ t, h = n ++ t := by
  induction n with
  | nil =>
      intro h
      constructor
      · intro _; exact ⟨h, rfl⟩
      · intro _; cases h <;> rfl
  | cons a ns ih =>
      intro h
      cases h with
      | nil =>
          simp only [charsStartWith]
          constructor
          · intro hfalse; cases hfalse
          · rintro ⟨t, ht⟩; cases ht
      | cons c cs =>
          simp only [charsStartWith, Bool.and_eq_true, beq_iff_eq, ih cs, List.cons_append]
          constructor
          · rintro ⟨rfl, t, rfl⟩; exact ⟨t, rfl⟩
          · rintro ⟨t, ht⟩
            obtain ⟨rfl, rfl⟩ := List.cons.inj ht
            exact ⟨rfl, t, rfl⟩

theorem charsContain_iff (n : List Char) :
    ∀ h : List Char, charsContain n h = true ↔ ∃ pre post, h = pre ++ n ++ post := by
  intro h
  induction h with
  | nil =>
      rw [charsContain, charsStartWith_iff n []]
      constructor
      · rintro ⟨t, ht⟩
        exact ⟨[], t, by simpa using ht⟩
      · rintro ⟨pre, post, hp⟩
        exact ⟨post, by rw [hp]; cases pre <;> simp_all⟩
  | cons c cs ih =>
      rw [charsContain, Bool.or_eq_true, charsStartWith_iff n (c :: cs), ih]
      constructor
      · rintro (⟨t, ht⟩ | ⟨pre, post, hp⟩)
        · exact ⟨[], t, by simpa using ht⟩
        · exact ⟨c :: pre, post, by simp [hp]⟩
      · rintro ⟨pre, post, hp⟩
        cases pre with
        | nil => exact Or.inl ⟨post, by simpa using hp⟩
        | cons a pre =>
            obtain ⟨rfl, h2⟩ := List.cons.inj (by simpa using hp)
            exact Or.inr ⟨pre, post, by rw [List.append_assoc]; exact h2⟩

/-- `icontains hay needle` holds exactly when the lowercased needle occurs
contiguously in the lowercased haystack. -/
theorem icontains_iff (hay needle : String) :
    icontains hay needle = true ↔
      ∃ pre post, lowerChars hay = pre ++ lowerChars needle ++ post := by
  unfold icontains
  exact charsContain_iff (lowerChars needle) (lowerChars hay)

theorem annotate_map_fst (db : DB) (cs : List Customer) :
    (annotate_total_revenue db cs).map Prod.fst = cs := by
  unfold annotate_total_revenue
  induction cs with
  | nil => rfl
  | cons c t ih => simp_all

theorem one_le_numPages (count : Nat) : 1 ≤ numPages count 2 := by
  unfold numPages
  omega

/-- C4: the customer list returns exactly the customers whose name or email
contains the search string as a case-insensitive substring; an empty or
absent search parameter leaves the list unfiltered, and its first page then
holds 2 customers (the fixed page size), given at least 2 exist. -/
theorem C4_search_filter (db : DB) (q : String) (h2 : 2 ≤ db.customers.length) :
    (q ≠ "" → ∀ c : Customer,
      (c ∈ (customers_get_queryset db (some q)).map Prod.fst ↔
        c ∈ db.customers ∧
          ((∃ pre post, lowerChars c.name = pre ++ lowerChars q ++ post)
            ∨ (∃ pre post, lowerChars c.email = pre ++ lowerChars q ++ post))))
    ∧ ((customers_get_queryset db (some "")).map Prod.fst = db.customers)
    ∧ ((customers_get_queryset db none).map Prod.fst = db.customers)
    ∧ customers_list_page db none none
        = .page ((customers_get_queryset db none).take 2) 1
    ∧ ((customers_get_queryset db none).take 2).length = 2 := by
  have equery : ∀ s : String, customers_get_queryset db (some s)
      = annotate_total_revenue db
          (if s ≠ "" then
            db.customers.filter (fun c => icontains c.name s || icontains c.email s)
          else db.customers) := fun _ => rfl
  have enone : customers_get_queryset db none
      = annotate_total_revenue db db.customers := rfl
  refine ⟨?_, ?_, ?_, ?_, ?_⟩
  · intro hq c
    rw [equery q, if_pos hq, annotate_map_fst]
    simp only [List.mem_filter, Bool.or_eq_true, icontains_iff]
  · rw [equery "", if_neg (by simp), annotate_map_fst]
  · rw [enone, annotate_map_fst]
  · show list_view_paginate (customers_get_queryset db none) 2 none = _
    have hp : parseIntChars (pageParamRaw none).data = some 1 := by decide
    simp only [list_view_paginate, hp]
    rw [if_pos ⟨by norm_num, by exact_mod_cast one_le_numPages _⟩]
    simp [pageItems]
  · have hlen : (customers_get_queryset db none).length = db.customers.length := by
      rw [enone]
      unfold annotate_total_revenue
      simp
    simp only [List.length_take, hlen]
    omega

/-- Witness for C4: on the two-customer scenario snapshot, searching "LI"
matches Alice through her name (case-insensitively), and the unfiltered
first page holds exactly 2 customers. -/
theorem C4_witness :
    (⟨1, "Alice", "alice@example.com", "111", "1 Main St"⟩ : Customer) ∈
      (customers_get_queryset dbScenario (some "LI")).map Prod.fst
    ∧ ((customers_get_queryset dbScenario none).take 2).length = 2 := by
  have h := C4_search_filter dbScenario "LI" (by decide)
  constructor
  · exact (h.1 (by decide) _).mpr
      ⟨by decide, Or.inl ⟨['a'], ['c', 'e'], by decide⟩⟩
  · exact h.2.2.2.2

/-- C5 fails as stated: on a snapshot whose only order (quantity 5) is on a
product outside the visible first page, the view still reports
`total_quantity = 5`, while the page-scoped sum the claim describes is null —
`Order.objects.filter(product__in=products)` ranges over the full queryset,
not the page. -/
theorem C5_counterexample :
    (product_list_context dbThirdProductOrder (some "1")).total_quantity = some 5
    ∧ (product_list_context dbThirdProductOrder (some "1")).page_obj
        = [⟨1, "p1", 10, 1⟩, ⟨2, "p2", 20, 1⟩]
    ∧ sumAggNat ((dbThirdProductOrder.orders.filter (fun o =>
          (product_list_context dbThirdProductOrder (some "1")).page_obj.any
            (fun p => p.id == o.product_id))).map (fun o => o.quantity)) = none
    ∧ some 5 ≠ (none : Option Nat) := by
  refine ⟨by decide, by decide, by decide, by decide⟩

theorem product_filter_eq_self (db : DB) (hwf : wellFormed db) :
    db.orders.filter (fun o => db.products.any (fun p => p.id == o.product_id))
      = db.orders := by
  rw [List.filter_eq_self]
  intro o ho
  obtain ⟨p, hp⟩ := Option.isSome_iff_exists.mp (hwf o ho)
  unfold findProduct at hp
  have hpa := List.find?_some hp
  exact List.any_eq_true.mpr ⟨p, List.mem_of_find?_eq_some hp, hpa⟩

/-- C5 amended: both aggregates of the product list view are global, not
page-scoped — `total_quantity` is the sum of ordered quantities across all
products (independent of the requested page) and `average_price` is the mean
of price over all products; there is no page-vs-global inconsistency. -/
theorem C5_amended_aggregates (db : DB) (hwf : wellFormed db)
    (param param2 : Option String) :
    (product_list_context db param).total_quantity
        = (product_list_context db param2).total_quantity
    ∧ (product_list_context db param).total_quantity
        = sumAggNat (db.orders.map (fun o => o.quantity))
    ∧ (product_list_context db param).average_price
        = avgAgg (db.products.map (fun p => p.price))
    ∧ (product_list_context db param).average_price
        = (product_list_context db param2).average_price := by
  have ht : ∀ pr : Option String, (product_list_context db pr).total_quantity
      = sumAggNat ((db.orders.filter (fun o =>
          db.products.any (fun p => p.id == o.product_id))).map (fun o => o.quantity)) :=
    fun _ => rfl
  have ha : ∀ pr : Option String, (product_list_context db pr).average_price
      = avgAgg (db.products.map (fun p => p.price)) := fun _ => rfl
  refine ⟨by rw [ht param, ht param2], ?_, ha param, by rw [ha param, ha param2]⟩
  rw [ht param, product_filter_eq_self db hwf]

/-- Witness for C5 (amended): on the well-formed counterexample snapshot, the
reported total quantity is the global sum 5 for page 1 and page 2 alike. -/
theorem C5_witness :
    (product_list_context dbThirdProductOrder (some "2")).total_quantity = some 5
    ∧ (product_list_context dbThirdProductOrder (some "2")).average_price = some 20 := by
  have h := C5_amended_aggregates dbThirdProductOrder (by decide) (some "2") (some "1")
  constructor
  · rw [h.2.1]; decide
  · rw [h.2.2.1]
    show avgAgg [10, 20, 30] = some 20
    norm_num [avgAgg]

/-- C6 fails as stated: the customers list (a ListView) answers the
non-numeric page "abc" with an Http404 error instead of clamping, and the
product index sends page "0" to the last page (page 2 of 2) although the
nearest valid page to 0 is page 1. -/
theorem C6_counterexample :
    customers_list_page dbFourProducts none (some "abc") = PaginateResult.http404
    ∧ index_page dbFourProducts (some "0") = [⟨3, "p3", 30, 1⟩, ⟨4, "p4", 40, 1⟩]
    ∧ get_page_number dbFourProducts.products.length 2 (some "0") = 2
    ∧ numPages dbFourProducts.products.length 2 = 2
    ∧ (2 : Nat) ≠ 1 := by
  refine ⟨by decide, by decide, by decide, by decide, by decide⟩

theorem get_page_number_none_eq (count : Nat) (param : Option String)
    (h : parsePageParam param = none) : get_page_number count 2 param = 1 := by
  unfold get_page_number
  rw [h]

theorem get_page_number_some_eq (count : Nat) (param : Option String) (n : Int)
    (h : parsePageParam param = some n) :
    get_page_number count 2 param =
      (if n < 1 then numPages count 2
       else if n > (numPages count 2 : Int) then numPages count 2
       else n.toNat) := by
  unfold get_page_number
  rw [h]

/-- C6 amended: the product index view (which uses `Paginator.get_page`)
never errors — a missing or non-numeric page gives page 1, and a numeric
page outside `1..num_pages` (zero and negatives included) gives the last
page, always landing on a valid page; the customers list view (a ListView)
instead serves only in-range numeric pages (missing or empty defaults to
page 1) and answers any other page value with an Http404 error. -/
theorem C6_amended_pagination (db : DB) (param search : Option String) :
    (1 ≤ get_page_number db.products.length 2 param
      ∧ get_page_number db.products.length 2 param ≤ numPages db.products.length 2)
    ∧ (parsePageParam param = none → get_page_number db.products.length 2 param = 1)
    ∧ (∀ k : Int, parsePageParam param = some k →
        ((1 ≤ k ∧ k ≤ (numPages db.products.length 2 : Int)) →
            get_page_number db.products.length 2 param = k.toNat)
        ∧ ((k < 1 ∨ (numPages db.products.length 2 : Int) < k) →
            get_page_number db.products.length 2 param = numPages db.products.length 2))
    ∧ index_page db param
        = pageItems db.products 2 (get_page_number db.products.length 2 param)
    ∧ customers_list_page db search none
        = .page ((customers_get_queryset db search).take 2) 1
    ∧ (∀ s : String, parseIntChars s.data = none → s ≠ "" → s ≠ "last" →
        customers_list_page db search (some s) = .http404)
    ∧ (∀ s : String, ∀ k : Int, s ≠ "" → parseIntChars s.data = some k →
        ¬(1 ≤ k ∧ k ≤ (numPages (customers_get_queryset db search).length 2 : Int)) →
        customers_list_page db search (some s) = .http404) := by
  refine ⟨?_, ?_, ?_, rfl, ?_, ?_, ?_⟩
  · cases hp : parsePageParam param with
    | none =>
        rw [get_page_number_none_eq db.products.length param hp]
        exact ⟨le_refl 1, one_le_numPages _⟩
    | some n =>
        rw [get_page_number_some_eq db.products.length param n hp]
        by_cases h1 : n < 1
        · rw [if_pos h1]; exact ⟨one_le_numPages _, le_refl _⟩
        · by_cases hgt : n > (numPages db.products.length 2 : Int)
          · rw [if_neg h1, if_pos hgt]; exact ⟨one_le_numPages _, le_refl _⟩
          · rw [if_neg h1, if_neg hgt]
            push_neg at h1 hgt
            constructor <;> omega
  · exact get_page_number_none_eq db.products.length param
  · intro k hk
    rw [get_page_number_some_eq db.products.length param k hk]
    constructor
    · rintro ⟨hk1, hk2⟩
      rw [if_neg (not_lt.mpr hk1), if_neg (not_lt.mpr hk2)]
    · rintro (h1 | hgt)
      · rw [if_pos h1]
      · have h1 : ¬ k < 1 := by
          have := one_le_numPages db.products.length
          omega
        rw [if_neg h1, if_pos hgt]
  · have hp1 : parseIntChars (pageParamRaw none).data = some 1 := by decide
    simp only [customers_list_page, list_view_paginate, hp1]
    rw [if_pos ⟨by norm_num, by exact_mod_cast one_le_numPages _⟩]
    simp [pageItems]
  · intro s hs hne hlast
    have e : pageParamRaw (some s) = s := by
      show (if s = "" then "1" else s) = s
      rw [if_neg hne]
    simp only [customers_list_page, list_view_paginate, e, hs]
    rw [if_neg hlast]
  · intro s k hne hk hnot
    have e : pageParamRaw (some s) = s := by
      show (if s = "" then "1" else s) = s
      rw [if_neg hne]
    simp only [customers_list_page, list_view_paginate, e, hk]
    rw [if_neg hnot]

/-- Witness for C6 (amended): on the four-product, one-customer snapshot,
the index clamps the out-of-range page "9" to the last page (2), while the
customers list answers page "9" with Http404 and serves page 1 by default. -/
theorem C6_witness :
    get_page_number dbFourProducts.products.length 2 (some "9") = 2
    ∧ customers_list_page dbFourProducts none (some "9") = PaginateResult.http404
    ∧ customers_list_page dbFourProducts none none
        = PaginateResult.page ((customers_get_queryset dbFourProducts none).take 2) 1 := by
  have h := C6_amended_pagination dbFourProducts (some "9") none
  refine ⟨?_, ?_, h.2.2.2.2.1⟩
  · have h3 := (h.2.2.1 9 (by decide)).2 (Or.inr (by decide))
    rw [h3]; decide
  · exact h.2.2.2.2.2.2 "9" 9 (by decide) (by decide) (by decide)

theorem verify_confirm_found_eq (decode : String → Option Nat)
    (check : User → String → Bool) (users : List User) (uidb64 token : String)
    (u : User) (h : verify_found decode users uidb64 = some u) :
    verify_email_confirm_get decode check users uidb64 token
      = if check u token then
          (users.map (fun v => if v.id == u.id then { v with is_active := true } else v),
           .redirectComplete)
        else (users, .invalidLinkWarning) := by
  unfold verify_email_confirm_get
  rw [h]

/-- C7: email verification fails closed — whenever the uid fails to decode,
no user carries the decoded id, or the token check fails, the user table is
unchanged and the invalid-link warning is shown; `is_active` is set to true
exactly when the decoded user exists and the token checks out, and only that
user's `is_active` flag can change, atomically. -/
theorem C7_verify_email_fails_closed (decode : String → Option Nat)
    (check : User → String → Bool) (users : List User) (uidb64 token : String) :
    (verify_found decode users uidb64 = none →
      verify_email_confirm_get decode check users uidb64 token
        = (users, .invalidLinkWarning))
    ∧ (∀ u, verify_found decode users uidb64 = some u → check u token = false →
        verify_email_confirm_get decode check users uidb64 token
          = (users, .invalidLinkWarning))
    ∧ (∀ u, verify_found decode users uidb64 = some u → check u token = true →
        verify_email_confirm_get decode check users uidb64 token
          = (users.map (fun v => if v.id == u.id then { v with is_active := true } else v),
             .redirectComplete)
        ∧ (∀ v ∈ users, v.id ≠ u.id →
            v ∈ (verify_email_confirm_get decode check users uidb64 token).1)
        ∧ (∀ v ∈ (verify_email_confirm_get decode check users uidb64 token).1,
            v ∈ users ∨ ∃ w ∈ users, w.id = u.id ∧ v = { w with is_active := true })) := by
  refine ⟨?_, ?_, ?_⟩
  · intro h
    unfold verify_email_confirm_get
    rw [h]
  · intro u hu hc
    rw [verify_confirm_found_eq decode check users uidb64 token u hu,
      if_neg (by simp [hc])]
  · intro u hu hc
    have e := verify_confirm_found_eq decode check users uidb64 token u hu
    rw [if_pos hc] at e
    refine ⟨e, ?_, ?_⟩
    · intro v hv hne
      rw [e]
      exact List.mem_map.mpr ⟨v, hv, by rw [if_neg (by simp [hne])]⟩
    · intro v hv
      rw [e] at hv
      obtain ⟨w, hw, hfw⟩ := List.mem_map.mp hv
      by_cases hb : (w.id == u.id) = true
      · rw [if_pos hb] at hfw
        exact Or.inr ⟨w, hw, beq_iff_eq.mp hb, hfw.symm⟩
      · rw [if_neg hb] at hfw
        exact Or.inl (hfw ▸ hw)

/-- Witness for C7: with a concrete decoder and token checker, a bad uid and
a bad token both leave the one-user table untouched and warn, while the good
uid/token pair activates exactly that user. -/
theorem C7_witness :
    verify_email_confirm_get decodeNat checkTok usersOne "zz" "tok"
        = (usersOne, VerifyOutcome.invalidLinkWarning)
    ∧ verify_email_confirm_get decodeNat checkTok usersOne "1" "bad"
        = (usersOne, VerifyOutcome.invalidLinkWarning)
    ∧ verify_email_confirm_get decodeNat checkTok usersOne "1" "tok"
        = ([⟨1, "Alice", "alice@example.com", "pw", true, false, false⟩],
           VerifyOutcome.redirectComplete) := by
  refine ⟨?_, ?_, ?_⟩
  · exact (C7_verify_email_fails_closed decodeNat checkTok usersOne "zz" "tok").1
      (by decide)
  · exact (C7_verify_email_fails_closed decodeNat checkTok usersOne "1" "bad").2.1
      ⟨1, "Alice", "alice@example.com", "pw", false, false, false⟩ (by decide) (by decide)
  · have h := ((C7_verify_email_fails_closed decodeNat checkTok usersOne "1" "tok").2.2
      ⟨1, "Alice", "alice@example.com", "pw", false, false, false⟩ (by decide) (by decide)).1
    rw [h]
    decide

theorem register_post_valid_eq (users : List User) (session : Option Nat)
    (form : RegisterForm) (newId : Nat) (hv : form.valid = true) :
    register_post users session form newId
      = ⟨save_user
            (users ++ [⟨newId, form.first_name, form.email, form.password, true, false, false⟩])
            ⟨newId, form.first_name, form.email, form.password, false, true, true⟩,
         some newId, .redirectVerifyEmailDone⟩ := by
  unfold register_post create_user
  rw [if_pos hv]

theorem save_user_no_match (users : List User) (u1 : User)
    (hfresh : ∀ u ∈ users, u.id ≠ u1.id) :
    users.map (fun v => if v.id == u1.id then u1 else v) = users := by
  induction users with
  | nil => rfl
  | cons a t ih =>
      simp only [List.map_cons]
      rw [if_neg (by simp [hfresh a (List.mem_cons_self a t)]),
        ih (fun u hu => hfresh u (List.mem_cons_of_mem a hu))]

theorem save_user_append_fresh (users : List User) (u0 u1 : User)
    (hfresh : ∀ u ∈ users, u.id ≠ u1.id) (h0 : u0.id = u1.id) :
    save_user (users ++ [u0]) u1 = users ++ [u1] := by
  unfold save_user
  rw [List.map_append, save_user_no_match users u1 hfresh]
  congr 1
  simp [h0]

theorem find?_append_fresh (users : List User) (u1 : User) (newId : Nat)
    (hfresh : ∀ u ∈ users, u.id ≠ newId) (h1 : u1.id = newId) :
    (users ++ [u1]).find? (fun u => u.id == newId) = some u1 := by
  induction users with
  | nil => simp [List.find?, h1]
  | cons a t ih =>
      rw [List.cons_append,
        List.find?_cons_of_neg _ (by simp [hfresh a (List.mem_cons_self a t)])]
      exact ih (fun u hu => hfresh u (List.mem_cons_of_mem a hu))

/-- C8: every user the registration view saves ends up with
`is_active = false` and with `is_staff = true` and `is_superuser = true` —
all new users get the elevated flags at registration. -/
theorem C8_register_flags (users : List User) (session : Option Nat)
    (form : RegisterForm) (newId : Nat) (hv : form.valid = true)
    (hfresh : ∀ u ∈ users, u.id ≠ newId) :
    (register_post users session form newId).users
      = users ++ [⟨newId, form.first_name, form.email, form.password, false, true, true⟩]
    ∧ (register_post users session form newId).users.find? (fun u => u.id == newId)
        = some ⟨newId, form.first_name, form.email, form.password, false, true, true⟩ := by
  have e := register_post_valid_eq users session form newId hv
  have hs : (register_post users session form newId).users
      = users ++ [⟨newId, form.first_name, form.email, form.password, false, true, true⟩] := by
    rw [e]
    exact save_user_append_fresh users _ _ hfresh rfl
  exact ⟨hs, by rw [hs]; exact find?_append_fresh users _ newId hfresh rfl⟩

/-- Witness for C8: registering Carol on an empty user table stores her with
`is_active = false`, `is_staff = true`, `is_superuser = true`. -/
theorem C8_witness :
    (register_post [] none formCarol 1).users
      = [⟨1, "Carol", "carol@example.com", "pw", false, true, true⟩] := by
  have h := C8_register_flags [] none formCarol 1 (by decide) (by intro u hu; cases hu)
  simpa using h.1

/-- C9 fails as stated: for a missing id the customer delete view produces a
standard 404 (not an unhandled lookup error), while for a missing slug the
product detail view raises an unhandled lookup error (not a standard 404). -/
theorem C9_counterexample :
    customer_delete_get_object dbEmpty 1 = LookupResult.notFound404
    ∧ LookupResult.notFound404 ≠ LookupResult.doesNotExistError
    ∧ product_detail_lookup dbEmpty "missing" = ProductLookupResult.doesNotExistError
    ∧ ProductLookupResult.doesNotExistError ≠ ProductLookupResult.notFound404 := by
  refine ⟨by decide, by decide, by decide, by decide⟩

/-- C9 amended: absent lookups give the customer detail view (via
`get_object_or_404`) and the customer delete view (via the framework default
lookup) a standard 404, while the customer update, product detail, and
product update views (raw `.get` calls) raise an unhandled lookup error. -/
theorem C9_amended_lookup (db : DB) (pk : Nat) (slug : String)
    (hc : db.customers.find? (fun c => c.id == pk) = none)
    (hp : db.products.find? (fun p => p.slug == slug) = none) :
    customer_detail_get_object db pk = .notFound404
    ∧ customer_delete_get_object db pk = .notFound404
    ∧ customer_update_get_object db pk = .doesNotExistError
    ∧ product_detail_lookup db slug = .doesNotExistError
    ∧ product_update_lookup db slug = .doesNotExistError := by
  unfold customer_detail_get_object customer_delete_get_object
    customer_update_get_object product_detail_lookup product_update_lookup
  rw [hc, hp]
  exact ⟨rfl, rfl, rfl, rfl, rfl⟩

/-- Witness for C9 (amended): on the empty database every lookup misses, with
the amended outcome for each view. -/
theorem C9_witness :
    customer_detail_get_object dbEmpty 7 = LookupResult.notFound404
    ∧ customer_update_get_object dbEmpty 7 = LookupResult.doesNotExistError
    ∧ product_update_lookup dbEmpty "nope" = ProductLookupResult.doesNotExistError := by
  have h := C9_amended_lookup dbEmpty 7 "nope" (by decide) (by decide)
  exact ⟨h.1, h.2.2.1, h.2.2.2.2⟩

/-- C10: a successful registration immediately logs the new user into the
session — although the user is saved with `is_active = false` — and then
redirects to the verification-pending page. -/
theorem C10_register_session (users : List User) (session : Option Nat)
    (form : RegisterForm) (newId : Nat) (hv : form.valid = true) :
    (register_post users session form newId).sessionUser = some newId
    ∧ (register_post users session form newId).outcome = .redirectVerifyEmailDone
    ∧ (∀ u ∈ (register_post users session form newId).users, u.id = newId →
        u.is_active = false ∧ u.is_staff = true ∧ u.is_superuser = true) := by
  have e := register_post_valid_eq users session form newId hv
  refine ⟨by rw [e], by rw [e], ?_⟩
  intro u hu hid
  rw [e] at hu
  unfold save_user at hu
  obtain ⟨w, hw, hfw⟩ := List.mem_map.mp hu
  by_cases hb : (w.id == (⟨newId, form.first_name, form.email, form.password,
      false, true, true⟩ : User).id) = true
  · rw [if_pos hb] at hfw
    rw [← hfw]
    exact ⟨rfl, rfl, rfl⟩
  · rw [if_neg hb] at hfw
    rw [← hfw] at hid
    exact absurd hid (by simpa using hb)

/-- Witness for C10: registering Carol with an anonymous session leaves the
session holding her id and redirects to the verification-pending page, while
her stored record is inactive. -/
theorem C10_witness :
    (register_post usersOne none formCarol 2).sessionUser = some 2
    ∧ (register_post usersOne none formCarol 2).outcome
        = RegisterOutcome.redirectVerifyEmailDone := by
  have h := C10_register_session usersOne none formCarol 2 (by decide)
  exact ⟨h.1, h.2.1⟩

end Blog
